import Mathlib

/-!
Shallow embedding of the Disciplr vault contract (`src/lib.rs`).

The contract stores per-id vault records and a monotone id counter in
durable storage, and publishes events to an external sink.  Addresses and
32-byte hashes are opaque identifiers, modelled as natural numbers; the
`i128` amount is an `Int`; `u64` timestamps and the `u32` id counter are
naturals.  Each public contract function becomes a Lean function from the
contract's storage-plus-event state to a new state and return value.
-/

/-- `VaultStatus` enum from the source: Active = 0, Completed = 1,
Failed = 2, Cancelled = 3. -/
inductive VaultStatus where
  | Active
  | Completed
  | Failed
  | Cancelled
deriving DecidableEq

/-- The persisted vault record (`ProductivityVault` struct in the source). -/
structure ProductivityVault where
  creator : Nat
  amount : Int
  start_timestamp : Nat
  end_timestamp : Nat
  milestone_hash : Nat
  verifier : Option Nat
  success_destination : Nat
  failure_destination : Nat
  status : VaultStatus
deriving DecidableEq

/-- Events the contract publishes (the source publishes `vault_created`
with the id and full record, and `milestone_validated` with the id). -/
inductive ContractEvent where
  | vault_created (vault_id : Nat) (vault : ProductivityVault)
  | milestone_validated (vault_id : Nat)
deriving DecidableEq

/-- Contract state: the `NextVaultId` counter slot, the per-id vault
records (`DataKey::Vault(id)` entries; `none` means the key is absent),
and the log of published events (most recent first). -/
structure ContractState where
  nextVaultId : Nat
  vaults : Nat → Option ProductivityVault
  events : List ContractEvent

/-- The state before any call: no counter has been written (the source
reads it with `unwrap_or(0)`, so the first read yields 0), no vault
records exist, no events have been published. -/
def ContractState.init : ContractState :=
  { nextVaultId := 0, vaults := fun _ => none, events := [] }

/-- `create_vault` from the source: builds the record with status Active,
reads the counter (default 0), stores the record under the current
counter value, bumps the counter, publishes `vault_created`, and returns
the id.  The source performs no validation of `amount`, the timestamps or
the destinations.  (`creator.require_auth()` is a call into the external
authorization collaborator; a failed proof traps the whole invocation
before any of this runs, so the embedding covers exactly the executions
that reach the body.) -/
def create_vault (s : ContractState) (creator : Nat) (amount : Int)
    (start_timestamp end_timestamp : Nat) (milestone_hash : Nat)
    (verifier : Option Nat) (success_destination failure_destination : Nat) :
    ContractState × Nat :=
  let vault : ProductivityVault :=
    { creator := creator
      amount := amount
      start_timestamp := start_timestamp
      end_timestamp := end_timestamp
      milestone_hash := milestone_hash
      verifier := verifier
      success_destination := success_destination
      failure_destination := failure_destination
      status := VaultStatus.Active }
  let vault_id := s.nextVaultId
  ({ nextVaultId := vault_id + 1
     vaults := fun i => if i = vault_id then some vault else s.vaults i
     events := ContractEvent.vault_created vault_id vault :: s.events },
   vault_id)

/-- `validate_milestone` from the source: the body is a stub — it only
publishes `milestone_validated` and returns `true`.  No vault lookup, no
status check, no verifier check, no timing check, no status write. -/
def validate_milestone (s : ContractState) (vault_id : Nat) :
    ContractState × Bool :=
  ({ s with events := ContractEvent.milestone_validated vault_id :: s.events },
   true)

/-- `release_funds` from the source: a stub that ignores its arguments
and returns `true` without touching storage or publishing anything. -/
def release_funds (s : ContractState) (_vault_id : Nat) :
    ContractState × Bool :=
  (s, true)

/-- `redirect_funds` from the source: a stub that ignores its arguments
and returns `true` without touching storage or publishing anything. -/
def redirect_funds (s : ContractState) (_vault_id : Nat) :
    ContractState × Bool :=
  (s, true)

/-- `cancel_vault` from the source: a stub that ignores its arguments and
returns `true` without touching storage or publishing anything.  Note the
source signature takes only the environment and the vault id — there is
no caller parameter and no authorization call. -/
def cancel_vault (s : ContractState) (_vault_id : Nat) :
    ContractState × Bool :=
  (s, true)

/-- `get_vault_state` from the source: a pure read of the persistent
`Vault(vault_id)` entry; returns `none` when the key is absent. -/
def get_vault_state (s : ContractState) (vault_id : Nat) :
    Option ProductivityVault :=
  s.vaults vault_id

/-- One invocation of a public contract function, with arbitrary
arguments, relating the state before the call to the state after it.
`get_vault_state` reads storage without writing, so its step leaves the
state unchanged. -/
inductive ContractStep : ContractState → ContractState → Prop where
  | create (s : ContractState) (creator : Nat) (amount : Int)
      (start_timestamp end_timestamp milestone_hash : Nat)
      (verifier : Option Nat) (success_destination failure_destination : Nat) :
      ContractStep s (create_vault s creator amount start_timestamp
        end_timestamp milestone_hash verifier success_destination
        failure_destination).1
  | validate (s : ContractState) (vault_id : Nat) :
      ContractStep s (validate_milestone s vault_id).1
  | release (s : ContractState) (vault_id : Nat) :
      ContractStep s (release_funds s vault_id).1
  | redirect (s : ContractState) (vault_id : Nat) :
      ContractStep s (redirect_funds s vault_id).1
  | cancel (s : ContractState) (vault_id : Nat) :
      ContractStep s (cancel_vault s vault_id).1
  | query (s : ContractState) (vault_id : Nat) :
      ContractStep s s

/-- States reachable from the empty state by any sequence of public
contract invocations. -/
inductive Reachable : ContractState → Prop where
  | init : Reachable ContractState.init
  | step {s s' : ContractState} : Reachable s → ContractStep s s' →
      Reachable s'

/-- Argument bundle for one `create_vault` call. -/
structure CreateArgs where
  creator : Nat
  amount : Int
  start_timestamp : Nat
  end_timestamp : Nat
  milestone_hash : Nat
  verifier : Option Nat
  success_destination : Nat
  failure_destination : Nat

/-- Apply `create_vault` to one argument bundle. -/
def applyCreate (s : ContractState) (a : CreateArgs) : ContractState × Nat :=
  create_vault s a.creator a.amount a.start_timestamp a.end_timestamp
    a.milestone_hash a.verifier a.success_destination a.failure_destination

/-- Run a sequence of `create_vault` calls, collecting the returned
vault ids in call order. -/
def runCreates : ContractState → List CreateArgs → ContractState × List Nat
  | s, [] => (s, [])
  | s, a :: rest =>
    let p := applyCreate s a
    let q := runCreates p.1 rest
    (q.1, p.2 :: q.2)

/-- A sample creation: creator 1 locks 1000 units over the window
[100, 200) with milestone hash 7, verifier 2, success destination 3 and
failure destination 4. -/
def sampleArgs : CreateArgs :=
  { creator := 1, amount := 1000, start_timestamp := 100
    end_timestamp := 200, milestone_hash := 7, verifier := some 2
    success_destination := 3, failure_destination := 4 }

/-- The record `create_vault` writes for `sampleArgs`. -/
def sampleVault : ProductivityVault :=
  { creator := 1, amount := 1000, start_timestamp := 100
    end_timestamp := 200, milestone_hash := 7, verifier := some 2
    success_destination := 3, failure_destination := 4
    status := VaultStatus.Active }

/-- The state after creating `sampleArgs` from the empty state: one
vault, id 0, counter 1. -/
def sampleState : ContractState :=
  (applyCreate ContractState.init sampleArgs).1

theorem sampleState_vaults_zero : sampleState.vaults 0 = some sampleVault := by
  simp [sampleState, applyCreate, sampleArgs, create_vault,
    ContractState.init, sampleVault]

theorem runCreates_ids (l : List CreateArgs) :
    ∀ s : ContractState,
      (runCreates s l).2 = List.range' s.nextVaultId l.length := by
  induction l with
  | nil => intro s; rfl
  | cons a rest ih =>
    intro s
    show (applyCreate s a).2 :: (runCreates (applyCreate s a).1 rest).2 =
      List.range' s.nextVaultId (rest.length + 1)
    rw [List.range'_succ, ih (applyCreate s a).1]
    rfl

theorem reachable_inv {s : ContractState} (h : Reachable s) :
    (∀ vault_id v, s.vaults vault_id = some v →
      v.status = VaultStatus.Active) ∧
    (∀ vault_id, s.nextVaultId ≤ vault_id → s.vaults vault_id = none) := by
  induction h with
  | init =>
    exact ⟨fun vault_id v hv => by simp [ContractState.init] at hv,
           fun vault_id _ => rfl⟩
  | step hr hstep ih =>
    rename_i t t'
    cases hstep with
    | create creator amount st en mh ver sd fd =>
      constructor
      · intro vault_id v hv
        simp only [create_vault] at hv
        by_cases hid : vault_id = t.nextVaultId
        · rw [if_pos hid] at hv
          injection hv with hv2
          subst hv2
          rfl
        · rw [if_neg hid] at hv
          exact ih.1 vault_id v hv
      · intro vault_id hle
        simp only [create_vault] at hle ⊢
        have hne : ¬ vault_id = t.nextVaultId := by omega
        rw [if_neg hne]
        exact ih.2 vault_id (by omega)
    | validate vault_id => exact ih
    | release vault_id => exact ih
    | redirect vault_id => exact ih
    | cancel vault_id => exact ih
    | query vault_id => exact ih

theorem sampleReachable : Reachable sampleState :=
  Reachable.step Reachable.init
    (ContractStep.create ContractState.init 1 1000 100 200 7 (some 2) 3 4)

/-- C2: from any state, `create_vault` on valid inputs (positive amount,
ordered window, distinct destinations) followed by `get_vault_state` on
the returned id yields `some` record whose eight fields equal the inputs
and whose status is Active. -/
theorem create_vault_then_get (s : ContractState) (creator : Nat)
    (amount : Int) (st en mh : Nat) (ver : Option Nat) (sd fd : Nat)
    (_hamount : 0 < amount) (_hwindow : st ≤ en) (_hdest : sd ≠ fd) :
    get_vault_state (create_vault s creator amount st en mh ver sd fd).1
        (create_vault s creator amount st en mh ver sd fd).2 =
      some { creator := creator, amount := amount, start_timestamp := st,
             end_timestamp := en, milestone_hash := mh, verifier := ver,
             success_destination := sd, failure_destination := fd,
             status := VaultStatus.Active } := by
  simp [get_vault_state, create_vault]

theorem create_vault_then_get_witness :
    (0 : Int) < 1000 ∧ (100 : Nat) ≤ 200 ∧ (3 : Nat) ≠ 4 ∧
    get_vault_state sampleState 0 = some sampleVault :=
  ⟨by decide, by decide, by decide,
   create_vault_then_get ContractState.init 1 1000 100 200 7 (some 2) 3 4
     (by decide) (by decide) (by decide)⟩

/-- C3: starting from the empty state, any sequence of `create_vault`
calls returns the ids 0, 1, 2, … in order — strictly increasing and
never reused — because the counter starts at 0, each call returns the
pre-increment counter value, and each call bumps the counter by exactly
one. -/
theorem create_vault_ids_strictly_increasing (l : List CreateArgs)
    (s : ContractState) (a : CreateArgs) :
    (runCreates ContractState.init l).2 = List.range l.length ∧
    List.Pairwise (· < ·) (runCreates ContractState.init l).2 ∧
    (runCreates ContractState.init l).2.Nodup ∧
    ContractState.init.nextVaultId = 0 ∧
    (applyCreate s a).2 = s.nextVaultId ∧
    (applyCreate s a).1.nextVaultId = s.nextVaultId + 1 := by
  have hids : (runCreates ContractState.init l).2 = List.range l.length := by
    rw [runCreates_ids, List.range_eq_range']
    rfl
  refine ⟨hids, ?_, ?_, rfl, rfl, rfl⟩
  · rw [hids]; exact List.pairwise_lt_range l.length
  · rw [hids]; exact List.nodup_range l.length

/-- C8: `get_vault_state` is a pure read — it is a function of the state
that returns exactly the stored `Vault(vault_id)` entry and produces no
new state (its type has no state component and the source only calls
`storage().persistent().get`), it takes no caller argument (no
authorization), and on every reachable state it returns `none` for any
id never issued by `create_vault` (every issued id is below the
counter). -/
theorem get_vault_state_pure_read {s : ContractState} (h : Reachable s)
    (vault_id : Nat) :
    get_vault_state s vault_id = s.vaults vault_id ∧
    (s.nextVaultId ≤ vault_id → get_vault_state s vault_id = none) :=
  ⟨rfl, fun hle => (reachable_inv h).2 vault_id hle⟩

theorem get_vault_state_pure_read_witness :
    get_vault_state sampleState 0 = sampleState.vaults 0 ∧
    get_vault_state sampleState 5 = none :=
  ⟨(get_vault_state_pure_read sampleReachable 0).1,
   (get_vault_state_pure_read sampleReachable 5).2 (by decide)⟩

/-- C9: on every state and every vault id — issued or not — each of the
four stub operations returns `true` and leaves every vault record and
the NextVaultId counter unchanged (`validate_milestone` only appends an
event; the other three return the state untouched). -/
theorem stub_ops_frame (s : ContractState) (vault_id : Nat) :
    (validate_milestone s vault_id).2 = true ∧
    (validate_milestone s vault_id).1.vaults = s.vaults ∧
    (validate_milestone s vault_id).1.nextVaultId = s.nextVaultId ∧
    release_funds s vault_id = (s, true) ∧
    redirect_funds s vault_id = (s, true) ∧
    cancel_vault s vault_id = (s, true) :=
  ⟨rfl, rfl, rfl, rfl, rfl, rfl⟩

/-- C10: in every state reachable by any sequence of the six public
operations, every stored vault record has status Active — no reachable
state holds a Completed, Failed or Cancelled record, because only
`create_vault` ever writes a record and it always writes Active. -/
theorem reachable_vault_status_Active {s : ContractState}
    (h : Reachable s) (vault_id : Nat) (v : ProductivityVault)
    (hv : s.vaults vault_id = some v) : v.status = VaultStatus.Active :=
  (reachable_inv h).1 vault_id v hv

theorem reachable_vault_status_Active_witness :
    sampleVault.status = VaultStatus.Active :=
  reachable_vault_status_Active sampleReachable 0 sampleVault
    sampleState_vaults_zero

/-- C1 evaluation: on a freshly created (Active) vault, applying each
lifecycle operation twice returns `true` BOTH times — the second
application does not fail with InvalidState as the spec requires — and
no application ever changes the stored record, so no vault can even
reach a terminal status.  The source bodies are TODO stubs. -/
theorem terminal_states_not_enforced :
    (validate_milestone sampleState 0).2 = true ∧
    (validate_milestone (validate_milestone sampleState 0).1 0).2 = true ∧
    (validate_milestone (validate_milestone sampleState 0).1 0).1.vaults 0 =
      some sampleVault ∧
    (release_funds (release_funds sampleState 0).1 0).2 = true ∧
    (redirect_funds (redirect_funds sampleState 0).1 0).2 = true ∧
    (cancel_vault (cancel_vault sampleState 0).1 0).2 = true :=
  ⟨rfl, rfl, sampleState_vaults_zero, rfl, rfl, rfl⟩

/-- C4 evaluation: `validate_milestone` in the source takes no caller
identity and never reads the clock or the vault; it returns `true` on
every state and every id — including a state whose only vault has
verifier 2 and `end_timestamp` 200 — so it can never fail with
AuthorizationDenied or WindowClosed. -/
theorem validate_milestone_no_auth_or_window_check :
    (validate_milestone sampleState 0).2 = true ∧
    (validate_milestone sampleState 5).2 = true ∧
    ∀ (s : ContractState) (vault_id : Nat),
      (validate_milestone s vault_id).2 = true :=
  ⟨rfl, rfl, fun _ _ => rfl⟩

/-- C5 evaluation: `redirect_funds` in the source never reads the clock
or the vault: it returns `(s, true)` unchanged on every state and id, so
it does not fail with WindowStillOpen before `end_timestamp` and does
not set status Failed after it — the sample vault stays Active. -/
theorem redirect_funds_no_window_check :
    redirect_funds sampleState 0 = (sampleState, true) ∧
    (redirect_funds sampleState 0).1.vaults 0 = some sampleVault ∧
    ∀ (s : ContractState) (vault_id : Nat),
      redirect_funds s vault_id = (s, true) :=
  ⟨rfl, sampleState_vaults_zero, fun _ _ => rfl⟩

/-- C6 evaluation: `create_vault` performs no validation — with
`amount = -5`, `start_timestamp = 200 > end_timestamp = 100`, and equal
success and failure destinations (all three constraints violated at
once) it still returns id 0 and writes the record with status Active
instead of failing with InvalidArgument. -/
theorem create_vault_no_argument_validation :
    (create_vault ContractState.init 1 (-5) 200 100 7 none 3 3).2 = 0 ∧
    (create_vault ContractState.init 1 (-5) 200 100 7 none 3 3).1.vaults 0 =
      some { creator := 1, amount := -5, start_timestamp := 200,
             end_timestamp := 100, milestone_hash := 7, verifier := none,
             success_destination := 3, failure_destination := 3,
             status := VaultStatus.Active } :=
  ⟨rfl, by simp [create_vault, ContractState.init]⟩

/-- C7 evaluation: `cancel_vault` in the source takes no caller identity
and performs no authorization call; it returns `(s, true)` for every
state and id, so a non-creator caller succeeds instead of failing with
AuthorizationDenied (the vault is indeed left unchanged, but so is it
for the creator — no cancellation ever happens). -/
theorem cancel_vault_no_creator_check :
    cancel_vault sampleState 0 = (sampleState, true) ∧
    ∀ (s : ContractState) (vault_id : Nat),
      cancel_vault s vault_id = (s, true) :=
  ⟨rfl, fun _ _ => rfl⟩
